import Mathlib

/-!
Verification of the bucket-hydrology reservoir-cascade model
(`bucketHydrology.py`).

The Python code works on floating-point numbers; we embed it over the real
numbers `ℝ`, with `np.inf` (the default maximum capacity) represented by
`⊤ : EReal`.  Each Python method that mutates an object is embedded as a
pure function from the old record to the new record.
-/

set_option autoImplicit false

open scoped Classical

/-- One storage layer.  Mirrors `class reservoir` of `bucketHydrology.py`:
`Hwater` is the current stored water depth, `Hmax` the storage ceiling
(possibly `⊤`, i.e. `np.inf`), `t_efold` the e-folding depletion time,
`excess` the pending overflow carried to the next `discharge` call,
`f_to_discharge` the exfiltration fraction, and `H_exfiltrated` /
`H_infiltrated` the outputs of the last `discharge` call.  (The unused
field `Hout = np.nan` of the source constructor is omitted.) -/
structure reservoir where
  Hwater : ℝ
  Hmax : EReal
  t_efold : ℝ
  excess : ℝ
  f_to_discharge : ℝ
  H_exfiltrated : ℝ
  H_infiltrated : ℝ

/-- Embeds `reservoir.recharge(self, H)`: the local variable `excess`
starts at `0.`, exactly one of the three branches runs (`Hwater < 0`:
clamp to zero and discard `H`; `Hwater + H <= Hmax`: plain addition;
otherwise: overflow), and finally `self.excess += excess`. -/
noncomputable def reservoir.recharge (r : reservoir) (H : ℝ) : reservoir :=
  if r.Hwater < 0 then
    -- Allowing ET in top layer only (local excess stays 0).
    { r with Hwater := 0, excess := r.excess + 0 }
  else if (↑(r.Hwater + H) : EReal) ≤ r.Hmax then
    { r with Hwater := r.Hwater + H, excess := r.excess + 0 }
  else
    { r with Hwater := r.Hmax.toReal,
             excess := r.excess + (r.Hwater + H - r.Hmax.toReal) }

/-- Embeds `reservoir.discharge(self, dt)`:
`dH = Hwater * (1 - exp(-dt/t_efold))`, the depleted water is split into
exfiltration (`excess + dH * f_to_discharge`) and infiltration
(`dH * (1 - f_to_discharge)`), the level drops by `dH`, and the pending
excess is reset to `0`. -/
noncomputable def reservoir.discharge (r : reservoir) (dt : ℝ) : reservoir :=
  let dH := r.Hwater * (1 - Real.exp (-dt / r.t_efold))
  { r with H_exfiltrated := r.excess + dH * r.f_to_discharge,
           H_infiltrated := dH * (1 - r.f_to_discharge),
           Hwater := r.Hwater - dH,
           excess := 0 }

/-- The loop body of `buckets.update` for one subsequent reservoir `i`:
`reservoirs[i].recharge(reservoirs[i-1].H_infiltrated)` followed by
`reservoirs[i].discharge(dt)`, where `prev` is reservoir `i-1` *after* its
own update this step (the Python loop reads the already-mutated object). -/
noncomputable def buckets.updateAux (dt : ℝ) : reservoir → List reservoir → List reservoir × ℝ
  | _, [] => ([], 0)
  | prev, r :: rest =>
      let r' := (r.recharge prev.H_infiltrated).discharge dt
      let p := buckets.updateAux dt r' rest
      (r' :: p.1, r'.H_exfiltrated + p.2)

/-- Embeds `buckets.update(self, rain_at_timestep, ET_at_timestep=0.)`:
the top reservoir is recharged with `rain - ET` and discharged, then every
subsequent reservoir is recharged with its predecessor's infiltrated water
and discharged, while `Qi` accumulates every reservoir's exfiltrated
water.  Returns the mutated reservoir list together with `Qi`; `none`
embeds the `IndexError` Python raises on an empty reservoir list. -/
noncomputable def buckets.update (dt rain ET : ℝ) :
    List reservoir → Option (List reservoir × ℝ)
  | [] => none
  | r :: rest =>
      let r0 := (r.recharge (rain - ET)).discharge dt
      let p := buckets.updateAux dt r0 rest
      some (r0 :: p.1, r0.H_exfiltrated + p.2)

/-- The update sequence exactly as the claim words it: each subsequent
reservoir in list order is recharged with its (already updated)
predecessor's `H_infiltrated` and then discharged. -/
noncomputable def buckets.chainSpec (dt : ℝ) : reservoir → List reservoir → List reservoir
  | _, [] => []
  | prev, r :: rest =>
      let r' := (r.recharge prev.H_infiltrated).discharge dt
      r' :: buckets.chainSpec dt r' rest

/-- Errors observable from `buckets.run`.  `noRain` is
`sys.exit("Please set the rainfall time series")`; `typeError` is the
`TypeError` raised by subscripting `None` (e.g. `rain[ti]` when the `rain`
argument was omitted); `indexError` is an out-of-range access. -/
inductive RunError where
  | noRain
  | typeError
  | indexError
deriving DecidableEq

/-- Embeds `class buckets` state: the reservoir cascade, the time step,
the optional configured rainfall and evapotranspiration series, and the
discharge series `self.Q`. -/
structure buckets where
  reservoirs : List reservoir
  dt : ℝ
  rain : Option (List ℝ)
  ET : Option (List ℝ)
  Q : List ℝ

/-- The loop of `buckets.run`: `for ti in range(len(self.rain))`, each
step evaluates `rain[ti]` on the *argument* `rain` (not `self.rain`!),
optionally `self.ET[ti]`, calls `update`, and appends the result to `Q`.
The counter `n` is the number of remaining steps, `ti` the current index.
On an exception the reservoirs and the `Q` accumulated so far are kept. -/
noncomputable def buckets.runSteps (dt : ℝ) (rainArg ETser : Option (List ℝ))
    (useET : Bool) :
    ℕ → ℕ → List reservoir → List ℝ → List reservoir × List ℝ × Option RunError
  | _, 0, rs, acc => (rs, acc, none)
  | ti, n + 1, rs, acc =>
      match rainArg with
      | none => (rs, acc, some RunError.typeError)
      | some rl =>
          match rl.get? ti with
          | none => (rs, acc, some RunError.indexError)
          | some rv =>
              match (if useET then
                       match ETser with
                       | none => Except.error RunError.typeError
                       | some el =>
                           match el.get? ti with
                           | none => Except.error RunError.indexError
                           | some ev => Except.ok ev
                     else Except.ok (0 : ℝ)) with
              | Except.error e => (rs, acc, some e)
              | Except.ok ev =>
                  match buckets.update dt rv ev rs with
                  | none => (rs, acc, some RunError.indexError)
                  | some (rs', qi) =>
                      buckets.runSteps dt rainArg ETser useET (ti + 1) n rs' (acc ++ [qi])

/-- Embeds `buckets.run(self, rain=None, ET=False)`.  In source order:
`self.Q = []`; if the `rain` argument is given, store it in `self.rain`;
`sys.exit` if `self.rain` is still `None`; then loop `len(self.rain)`
times calling `self.update(rain[ti], ...)` — note the loop subscripts the
*argument* `rain`, so it raises a `TypeError` when the argument was
omitted, even though `self.rain` is configured. -/
noncomputable def buckets.run (b : buckets) (rainArg : Option (List ℝ)) (useET : Bool) :
    buckets × Option RunError :=
  let b1 : buckets := { b with Q := [] }
  let b2 : buckets :=
    match rainArg with
    | some r => { b1 with rain := some r }
    | none => b1
  match b2.rain with
  | none => (b2, some RunError.noRain)
  | some selfRain =>
      let p := buckets.runSteps b2.dt rainArg b2.ET useET 0 selfRain.length b2.reservoirs []
      ({ b2 with reservoirs := p.1, Q := p.2.1 }, p.2.2)

/-- The fixed heat-index constant `self.Chang_I` of `buckets.__init__`. -/
noncomputable def Chang_I : ℝ := 41.47044637

/-- The exponent `self.Chang_a_i` computed in `buckets.__init__` from
`Chang_I`. -/
noncomputable def Chang_a_i : ℝ :=
  6.75e-7 * Chang_I ^ 3 - 7.72e-5 * Chang_I ^ 2 + 1.7912e-2 * Chang_I + 0.49239

/-- Python booleans used as factors (`(Teff >= 26)` etc.) coerce to `1.0`
when true and `0.0` when false. -/
noncomputable def boolInd (P : Prop) : ℝ := if P then 1 else 0

/-- The power operator `**` as Python evaluates it on real scalars: for a
negative base and a non-integral exponent there is no real value — Python
floats raise `ValueError`, numpy produces `NaN` — modelled as `none`.
Otherwise the value is the real power (`rpow`; for a negative base and an
integral exponent `rpow` agrees with the signed integer power Python
computes). -/
noncomputable def pyPow (x y : ℝ) : Option ℝ :=
  if x < 0 ∧ ¬ ∃ n : ℤ, y = (n : ℝ) then none else some (x ^ y)

/-- Embeds `buckets.evapotranspirationChang2019(self, Tmax, Tmin,
photoperiod)`: effective temperature `Teff = 0.5*0.69*(3*Tmax - Tmin)`,
`C = photoperiod/360`, and the branch arithmetic written exactly as the
source writes it — each branch value multiplied by the boolean factors
`(Teff >= 26)` resp. `(Teff > 0)*(Teff < 26)`, and the two products
summed.  The power `(10*Teff/Chang_I) ** Chang_a_i` is evaluated eagerly,
*before* the boolean factors can mask it, so when its base is negative
(i.e. `Teff < 0`, the exponent `Chang_a_i ≈ 1.1506` being fractional) the
whole call has no real result — `ValueError` on Python floats, `NaN`
under numpy — embedded as `none`. -/
noncomputable def buckets.evapotranspirationChang2019 (Tmax Tmin photoperiod : ℝ) :
    Option ℝ :=
  let Teff : ℝ := 0.5 * 0.69 * (3 * Tmax - Tmin)
  let C : ℝ := photoperiod / 360
  match pyPow (10 * Teff / Chang_I) Chang_a_i with
  | none => none
  | some p =>
      some (C * (-415.85 + 32.24 * Teff - 0.43 * Teff ^ 2) * boolInd (Teff ≥ 26)
        + 16 * C * p * boolInd (Teff > 0) * boolInd (Teff < 26))

/-! ## Helper lemmas -/

/-- First branch of `recharge`: a negative entry level is clamped to `0`
and the amount is discarded. -/
theorem reservoir.recharge_of_neg (r : reservoir) (H : ℝ) (h : r.Hwater < 0) :
    r.recharge H = { r with Hwater := 0, excess := r.excess + 0 } := by
  simp [reservoir.recharge, h]

/-- Second branch of `recharge`: the amount fits under the capacity and is
added in full. -/
theorem reservoir.recharge_of_fits (r : reservoir) (H : ℝ) (h0 : ¬ r.Hwater < 0)
    (hle : (↑(r.Hwater + H) : EReal) ≤ r.Hmax) :
    r.recharge H = { r with Hwater := r.Hwater + H, excess := r.excess + 0 } := by
  simp only [reservoir.recharge]
  rw [if_neg h0, if_pos hle]

/-- Third branch of `recharge`: overflow pins the level at capacity and
accumulates the rejected water into `excess`. -/
theorem reservoir.recharge_of_over (r : reservoir) (H : ℝ) (h0 : ¬ r.Hwater < 0)
    (hgt : ¬ (↑(r.Hwater + H) : EReal) ≤ r.Hmax) :
    r.recharge H =
      { r with Hwater := r.Hmax.toReal,
               excess := r.excess + (r.Hwater + H - r.Hmax.toReal) } := by
  simp only [reservoir.recharge]
  rw [if_neg h0, if_neg hgt]

/-- The incremental accumulation of `Qi` in the `update` loop returns the
claim's chained reservoir list together with the sum of `H_exfiltrated`
over it. -/
theorem buckets.updateAux_eq_chainSpec (dt : ℝ) (prev : reservoir) (rest : List reservoir) :
    buckets.updateAux dt prev rest =
      (buckets.chainSpec dt prev rest,
       ((buckets.chainSpec dt prev rest).map reservoir.H_exfiltrated).sum) := by
  induction rest generalizing prev with
  | nil => simp [buckets.updateAux, buckets.chainSpec]
  | cons r rest ih => simp [buckets.updateAux, buckets.chainSpec, ih]

/-- The exponent used by the ET formula lies strictly between `1` and
`2` (its exact rational value is ≈ 1.15058), so it is not an integer. -/
theorem Chang_a_i_not_integral : ¬ ∃ n : ℤ, Chang_a_i = (n : ℝ) := by
  rintro ⟨n, hn⟩
  have h1 : (1 : ℝ) < Chang_a_i := by norm_num [Chang_a_i, Chang_I]
  have h2 : Chang_a_i < 2 := by norm_num [Chang_a_i, Chang_I]
  rw [hn] at h1 h2
  have h1n : (1 : ℤ) < n := by exact_mod_cast h1
  have h2n : n < 2 := by exact_mod_cast h2
  omega

/-- A non-negative base makes the Python power total. -/
theorem pyPow_of_nonneg (x y : ℝ) (h : 0 ≤ x) : pyPow x y = some (x ^ y) := by
  simp only [pyPow]
  rw [if_neg]
  rintro ⟨hx, -⟩
  exact absurd h (not_le.mpr hx)

/-- A negative base with a non-integral exponent makes the Python power
error out. -/
theorem pyPow_of_neg_frac (x y : ℝ) (hx : x < 0) (hy : ¬ ∃ n : ℤ, y = (n : ℝ)) :
    pyPow x y = none := by
  simp only [pyPow]
  rw [if_pos ⟨hx, hy⟩]

/-! ## Claims -/

/-- C1: `buckets.update` on a non-empty reservoir list recharges the top
reservoir with `rain - ET` and discharges it, then processes each
subsequent reservoir in list order — recharging it with its (already
updated) predecessor's `H_infiltrated` and discharging it — and returns
the sum of `H_exfiltrated` over all reservoirs for that step. -/
theorem update_chains_and_sums (dt rain et : ℝ) (r : reservoir) (rest : List reservoir) :
    buckets.update dt rain et (r :: rest) =
      some (((r.recharge (rain - et)).discharge dt) ::
              buckets.chainSpec dt ((r.recharge (rain - et)).discharge dt) rest,
            ((((r.recharge (rain - et)).discharge dt) ::
                buckets.chainSpec dt ((r.recharge (rain - et)).discharge dt) rest).map
              reservoir.H_exfiltrated).sum) := by
  simp [buckets.update, buckets.updateAux_eq_chainSpec]

/-- C2: for any reservoir state and `dt > 0`, `t_efold > 0`, `discharge`
computes `dH = Hwater * (1 - exp(-dt/t_efold))`, sets
`H_exfiltrated = excess + dH * f_to_discharge` (the pending overflow goes
entirely to exfiltration), sets `H_infiltrated = dH * (1 - f_to_discharge)`
(never receiving the pending overflow), lowers `Hwater` by `dH`, and
resets `excess` to `0`. -/
theorem discharge_formula (r : reservoir) (dt : ℝ) (hdt : 0 < dt) (hte : 0 < r.t_efold) :
    (r.discharge dt).H_exfiltrated
        = r.excess + r.Hwater * (1 - Real.exp (-dt / r.t_efold)) * r.f_to_discharge ∧
    (r.discharge dt).H_infiltrated
        = r.Hwater * (1 - Real.exp (-dt / r.t_efold)) * (1 - r.f_to_discharge) ∧
    (r.discharge dt).Hwater
        = r.Hwater - r.Hwater * (1 - Real.exp (-dt / r.t_efold)) ∧
    (r.discharge dt).excess = 0 :=
  ⟨rfl, rfl, rfl, rfl⟩

/-- Witness for C2 at the concrete reservoir `⟨5, ⊤, 2, 3, 1/4, 0, 0⟩`
and `dt = 1`. -/
theorem discharge_formula_witness :
    (0 : ℝ) < 1 ∧
      ((⟨5, ⊤, 2, 3, 1/4, 0, 0⟩ : reservoir).discharge 1).excess = 0 :=
  ⟨by norm_num,
   (discharge_formula ⟨5, ⊤, 2, 3, 1/4, 0, 0⟩ 1 (by norm_num) (by norm_num)).2.2.2⟩

/-- C4: a reservoir entering `recharge` with a strictly negative level has
its level set to `0` and the amount (positive or negative) discarded
entirely: the resulting record is the old one with `Hwater := 0`, so in
particular `excess` is unchanged. -/
theorem recharge_discards_when_negative (r : reservoir) (amount : ℝ)
    (h : r.Hwater < 0) :
    r.recharge amount = { r with Hwater := 0 } := by
  rw [reservoir.recharge_of_neg r amount h]
  simp

/-- Witness for C4: level `-1`, recharge `7` — the `7` vanishes and
`excess` stays `5`. -/
theorem recharge_discards_when_negative_witness :
    (⟨-1, ⊤, 1, 5, 1, 0, 0⟩ : reservoir).recharge 7 = ⟨0, ⊤, 1, 5, 1, 0, 0⟩ :=
  recharge_discards_when_negative ⟨-1, ⊤, 1, 5, 1, 0, 0⟩ 7 (by norm_num)

/-- C5: mass conservation for an unbounded reservoir.  With
`Hmax = ⊤` (`np.inf`) a reservoir never overflows, so `recharge` leaves
`excess` unchanged (first conjunct: the `excess = 0` hypothesis is an
invariant of reservoirs built with infinite capacity, whose constructor
sets `excess = 0`); and one `recharge`-then-`discharge` step satisfies
`H_exfiltrated + H_infiltrated = Hwater_before + amount - Hwater_after`. -/
theorem mass_conservation (r : reservoir) (amount dt : ℝ) (hmax : r.Hmax = ⊤)
    (h0 : 0 ≤ r.Hwater) (hex : r.excess = 0) :
    (r.recharge amount).excess = r.excess ∧
    ((r.recharge amount).discharge dt).H_exfiltrated
        + ((r.recharge amount).discharge dt).H_infiltrated
      = r.Hwater + amount - ((r.recharge amount).discharge dt).Hwater := by
  have hfits : (↑(r.Hwater + amount) : EReal) ≤ r.Hmax := by
    rw [hmax]; exact le_top
  rw [reservoir.recharge_of_fits r amount (not_lt.mpr h0) hfits]
  refine ⟨by simp, ?_⟩
  simp only [reservoir.discharge]
  rw [hex]
  ring

/-- Witness for C5: level `4`, capacity `⊤`, recharge `3`, `dt = 1`. -/
theorem mass_conservation_witness :
    ((⟨4, ⊤, 1, 0, 1/2, 0, 0⟩ : reservoir).recharge 3).excess
        = (⟨4, ⊤, 1, 0, 1/2, 0, 0⟩ : reservoir).excess ∧
    (((⟨4, ⊤, 1, 0, 1/2, 0, 0⟩ : reservoir).recharge 3).discharge 1).H_exfiltrated
        + (((⟨4, ⊤, 1, 0, 1/2, 0, 0⟩ : reservoir).recharge 3).discharge 1).H_infiltrated
      = 4 + 3 - (((⟨4, ⊤, 1, 0, 1/2, 0, 0⟩ : reservoir).recharge 3).discharge 1).Hwater :=
  mass_conservation ⟨4, ⊤, 1, 0, 1/2, 0, 0⟩ 3 1 rfl (by norm_num) rfl

/-- C3: overflow recharge.  Generally: a reservoir with finite capacity
`m`, non-negative level, and `Hwater + amount > m` ends `recharge` with
`Hwater = m` exactly and `excess` increased by `Hwater + amount - m`.
Concretely: capacity `10` holding `8` recharged with `5` ends with
`Hwater = 10` and `excess = 3`, and the next `discharge` call (any
`t_efold`, any `f_to_discharge`, any `dt`) puts that `3` entirely into
`H_exfiltrated` while `H_infiltrated` is `dH * (1 - f)` with no share of
the `3`. -/
theorem recharge_overflow (r : reservoir) (amount m : ℝ) (hm : r.Hmax = (m : EReal))
    (h0 : 0 ≤ r.Hwater) (hover : m < r.Hwater + amount) :
    ((r.recharge amount).Hwater = m ∧
     (r.recharge amount).excess = r.excess + (r.Hwater + amount - m)) ∧
    ∀ te f e hi dt : ℝ,
      ((⟨8, ((10 : ℝ) : EReal), te, 0, f, e, hi⟩ : reservoir).recharge 5).Hwater = 10 ∧
      ((⟨8, ((10 : ℝ) : EReal), te, 0, f, e, hi⟩ : reservoir).recharge 5).excess = 3 ∧
      (((⟨8, ((10 : ℝ) : EReal), te, 0, f, e, hi⟩ : reservoir).recharge 5).discharge
          dt).H_exfiltrated = 3 + 10 * (1 - Real.exp (-dt / te)) * f ∧
      (((⟨8, ((10 : ℝ) : EReal), te, 0, f, e, hi⟩ : reservoir).recharge 5).discharge
          dt).H_infiltrated = 10 * (1 - Real.exp (-dt / te)) * (1 - f) := by
  have hgt : ¬ (↑(r.Hwater + amount) : EReal) ≤ r.Hmax := by
    rw [hm, EReal.coe_le_coe_iff]
    exact not_le.mpr hover
  constructor
  · rw [reservoir.recharge_of_over r amount (not_lt.mpr h0) hgt]
    simp [hm, EReal.toReal_coe]
  · intro te f e hi dt
    have h8 : (⟨8, ((10 : ℝ) : EReal), te, 0, f, e, hi⟩ : reservoir).recharge 5
        = ⟨10, ((10 : ℝ) : EReal), te, 3, f, e, hi⟩ := by
      rw [reservoir.recharge_of_over _ 5 (by norm_num)
        (by rw [show ((⟨8, ((10 : ℝ) : EReal), te, 0, f, e, hi⟩ : reservoir)).Hmax
              = ((10 : ℝ) : EReal) from rfl, EReal.coe_le_coe_iff]; norm_num)]
      simp [EReal.toReal_coe]
      norm_num
    rw [h8]
    exact ⟨rfl, rfl, rfl, rfl⟩

/-- Witness for C3 at the concrete overflow scenario `8 + 5` against
capacity `10`. -/
theorem recharge_overflow_witness :
    ((⟨8, ((10 : ℝ) : EReal), 1, 0, 1, 0, 0⟩ : reservoir).recharge 5).Hwater = 10 :=
  ((recharge_overflow ⟨8, ((10 : ℝ) : EReal), 1, 0, 1, 0, 0⟩ 5 10 rfl
    (by norm_num) (by norm_num)).1).1

/-- C6 counterexample: a reservoir holding `2` recharged with `-5` does
*not* have level `0` immediately after that `recharge` call — the call
takes the plain-addition branch and leaves `Hwater = -3`. -/
theorem et_floor_counterexample :
    ((⟨2, ⊤, 1, 0, 1, 0, 0⟩ : reservoir).recharge (-5)).Hwater ≠ 0 := by
  rw [reservoir.recharge_of_fits _ (-5) (by norm_num) le_top]
  norm_num

/-- C6 amended: a reservoir holding `2` recharged with `-5` has
`Hwater = -3` immediately after that call; the floor to `0` is applied on
entry to the *next* `recharge` call (whatever its amount, which is then
discarded). -/
theorem et_floor_amended (a : ℝ) :
    ((⟨2, ⊤, 1, 0, 1, 0, 0⟩ : reservoir).recharge (-5)).Hwater = -3 ∧
    (((⟨2, ⊤, 1, 0, 1, 0, 0⟩ : reservoir).recharge (-5)).recharge a).Hwater = 0 := by
  have h : (⟨2, ⊤, 1, 0, 1, 0, 0⟩ : reservoir).recharge (-5)
      = ⟨2 + -5, ⊤, 1, 0 + 0, 1, 0, 0⟩ :=
    reservoir.recharge_of_fits _ (-5) (by norm_num) le_top
  rw [h]
  refine ⟨by norm_num, ?_⟩
  rw [reservoir.recharge_of_neg _ a (by norm_num)]

/-- C7: the claim says `run` iterates the configured rainfall series when
the `rain` argument is omitted.  It does not: the loop body subscripts the
*argument* (`rain[ti]`), so with `self.rain = [1]` configured and the
argument omitted, `run` passes the `self.rain is None` guard and then
raises a `TypeError` at the first step — no discharge value is ever
appended.  This theorem evaluates the model at that failing input. -/
theorem run_configured_rain_crashes :
    (buckets.run ⟨[⟨0, ⊤, 1, 0, 1, 0, 0⟩], 1, some [1], none, [7]⟩ none false).2
        = some RunError.typeError ∧
    (buckets.run ⟨[⟨0, ⊤, 1, 0, 1, 0, 0⟩], 1, some [1], none, [7]⟩ none false).1.Q
        = [] := by
  constructor <;> rfl

/-- C8: when no rainfall series is available (`self.rain = None` and the
`rain` argument omitted), `run` aborts with the missing-rainfall error
before any simulation step: the returned state equals the input state with
only `Q` cleared — the reservoirs are untouched (no `update` call ran) and
no discharge value was produced. -/
theorem run_missing_rain_aborts (b : buckets) (useET : Bool) (h : b.rain = none) :
    b.run none useET = ({ b with Q := [] }, some RunError.noRain) := by
  simp [buckets.run, h]

/-- Witness for C8 on a concrete one-reservoir cascade with no rainfall
configured. -/
theorem run_missing_rain_aborts_witness :
    buckets.run ⟨[⟨0, ⊤, 1, 0, 1, 0, 0⟩], 1, none, none, [3]⟩ none false
      = (⟨[⟨0, ⊤, 1, 0, 1, 0, 0⟩], 1, none, none, []⟩, some RunError.noRain) :=
  run_missing_rain_aborts ⟨[⟨0, ⊤, 1, 0, 1, 0, 0⟩], 1, none, none, [3]⟩ false rfl

/-- C10: `run` clears `self.Q` before validating the rainfall series, so
on the missing-rainfall error path the previous run's discharge series has
already been destroyed: the returned state has `Q = []`, different from
the non-empty `Q` held before the call. -/
theorem run_error_destroys_Q (b : buckets) (useET : Bool) (h : b.rain = none)
    (hq : b.Q ≠ []) :
    (b.run none useET).2 = some RunError.noRain ∧
    (b.run none useET).1.Q = [] ∧ (b.run none useET).1.Q ≠ b.Q := by
  rw [run_missing_rain_aborts b useET h]
  exact ⟨rfl, rfl, fun hcontra => hq hcontra.symm⟩

/-- Witness for C10: a buckets state holding a previous discharge series
`[3]` and no rainfall series loses `[3]` on the failing `run` call. -/
theorem run_error_destroys_Q_witness :
    (buckets.run ⟨[], 1, none, none, [3]⟩ none false).2 = some RunError.noRain ∧
    (buckets.run ⟨[], 1, none, none, [3]⟩ none false).1.Q = [] ∧
    (buckets.run ⟨[], 1, none, none, [3]⟩ none false).1.Q
        ≠ (⟨[], 1, none, none, [3]⟩ : buckets).Q :=
  run_error_destroys_Q ⟨[], 1, none, none, [3]⟩ false rfl (by simp)

/-- C9 counterexample: the claim asserts the result is `0` whenever
`Teff ≤ 0`, but at `Tmax = Tmin = -10` (so `Teff = -6.9 ≤ 0`,
photoperiod `360`) the eagerly evaluated power has the negative base
`10*(-6.9)/Chang_I` and the fractional exponent `Chang_a_i`, so the call
errors out (`ValueError` on Python floats, `NaN` under numpy) instead of
yielding `0`. -/
theorem etChang_counterexample :
    buckets.evapotranspirationChang2019 (-10) (-10) 360 = none ∧
    buckets.evapotranspirationChang2019 (-10) (-10) 360 ≠ some 0 := by
  have hbase : (10 * (0.5 * 0.69 * (3 * (-10 : ℝ) - (-10))) / Chang_I) < 0 := by
    norm_num [Chang_I]
  have hb := pyPow_of_neg_frac _ Chang_a_i hbase Chang_a_i_not_integral
  refine ⟨?_, ?_⟩
  · simp only [buckets.evapotranspirationChang2019]
    rw [hb]
  · simp only [buckets.evapotranspirationChang2019]
    rw [hb]
    simp

/-- C9 amended: branch structure of `evapotranspirationChang2019`.
Writing `Teff = 0.5*0.69*(3*Tmax - Tmin)` and `C = photoperiod/360`: the
result is `0` at `Teff = 0` exactly; the power-law value
`16*C*(10*Teff/Chang_I)^Chang_a_i` when `0 < Teff < 26`; the polynomial
value `C*(-415.85 + 32.24*Teff - 0.43*Teff²)` when `Teff ≥ 26` (the
boundary `26` lands here because `Teff < 26` is strict); and for
`Teff < 0` there is no result at all (`none`): the power
`(10*Teff/Chang_I) ** Chang_a_i` is evaluated before the boolean factor
`(Teff > 0)` can mask it, and its base is negative with a fractional
exponent.  The four guards are mutually exclusive and exhaust `ℝ`. -/
theorem etChang_amended (Tmax Tmin photoperiod : ℝ) :
    (0.5 * 0.69 * (3 * Tmax - Tmin) = 0 →
      buckets.evapotranspirationChang2019 Tmax Tmin photoperiod = some 0) ∧
    (0 < 0.5 * 0.69 * (3 * Tmax - Tmin) → 0.5 * 0.69 * (3 * Tmax - Tmin) < 26 →
      buckets.evapotranspirationChang2019 Tmax Tmin photoperiod =
        some (16 * (photoperiod / 360) *
          ((10 * (0.5 * 0.69 * (3 * Tmax - Tmin)) / Chang_I) ^ Chang_a_i))) ∧
    (26 ≤ 0.5 * 0.69 * (3 * Tmax - Tmin) →
      buckets.evapotranspirationChang2019 Tmax Tmin photoperiod =
        some ((photoperiod / 360) * (-415.85 + 32.24 * (0.5 * 0.69 * (3 * Tmax - Tmin))
          - 0.43 * (0.5 * 0.69 * (3 * Tmax - Tmin)) ^ 2))) ∧
    (0.5 * 0.69 * (3 * Tmax - Tmin) < 0 →
      buckets.evapotranspirationChang2019 Tmax Tmin photoperiod = none) := by
  have hI : (0 : ℝ) < Chang_I := by norm_num [Chang_I]
  refine ⟨?_, ?_, ?_, ?_⟩
  · intro h
    have hb : pyPow (10 * (0.5 * 0.69 * (3 * Tmax - Tmin)) / Chang_I) Chang_a_i
        = some ((10 * (0.5 * 0.69 * (3 * Tmax - Tmin)) / Chang_I) ^ Chang_a_i) :=
      pyPow_of_nonneg _ _ (by rw [h]; norm_num)
    have h26 : ¬ (0.5 * 0.69 * (3 * Tmax - Tmin) ≥ 26) := by
      intro hc; rw [ge_iff_le] at hc; linarith
    have hpos : ¬ (0.5 * 0.69 * (3 * Tmax - Tmin) > 0) := by
      intro hc; rw [gt_iff_lt] at hc; linarith
    simp [buckets.evapotranspirationChang2019, hb, boolInd, h26, hpos]
  · intro h0 h26
    have hb : pyPow (10 * (0.5 * 0.69 * (3 * Tmax - Tmin)) / Chang_I) Chang_a_i
        = some ((10 * (0.5 * 0.69 * (3 * Tmax - Tmin)) / Chang_I) ^ Chang_a_i) :=
      pyPow_of_nonneg _ _ (div_nonneg (by linarith) (le_of_lt hI))
    have hge : ¬ (0.5 * 0.69 * (3 * Tmax - Tmin) ≥ 26) := by
      intro hc; rw [ge_iff_le] at hc; linarith
    simp [buckets.evapotranspirationChang2019, hb, boolInd, hge, h0, h26]
  · intro h
    have hb : pyPow (10 * (0.5 * 0.69 * (3 * Tmax - Tmin)) / Chang_I) Chang_a_i
        = some ((10 * (0.5 * 0.69 * (3 * Tmax - Tmin)) / Chang_I) ^ Chang_a_i) :=
      pyPow_of_nonneg _ _ (div_nonneg (by linarith) (le_of_lt hI))
    have hlt : ¬ (0.5 * 0.69 * (3 * Tmax - Tmin) < 26) := by
      intro hc; linarith
    simp [buckets.evapotranspirationChang2019, hb, boolInd, h, hlt]
  · intro h
    have hb : pyPow (10 * (0.5 * 0.69 * (3 * Tmax - Tmin)) / Chang_I) Chang_a_i = none :=
      pyPow_of_neg_frac _ _ (div_neg_of_neg_of_pos (by linarith) hI)
        Chang_a_i_not_integral
    simp [buckets.evapotranspirationChang2019, hb]

/-- Witness for C9 at `Tmax = Tmin = 0`, photoperiod `360`: the effective
temperature is `0` exactly, where the result is `0`. -/
theorem etChang_amended_witness :
    buckets.evapotranspirationChang2019 0 0 360 = some 0 :=
  (etChang_amended 0 0 360).1 (by norm_num)
